import Mathlib

/-!
Shallow embedding of `src/index.ts` of the
`adminforth-image-generation-adapter-openai` package (the class
`ImageGenerationAdapterOpenAI`), together with theorems settling the
specification's claims about it.

Conventions of the embedding:
* JavaScript strings are Lean `String`s; where character-level operations
  matter (`split(',')`) we work on `String.data : List Char`.
* `undefined` / an absent optional value is `Option.none`.
* A thrown error or a rejected promise is `Except.error` carrying the
  error message; a resolved promise is `Except.ok`.
* The external effects — the two OpenAI endpoints, `axios.get` downloads
  of input files, `Buffer.from(_, 'base64')` decoding and the `file-type`
  sniffer — live outside this repository, so they are supplied as an
  `Oracle` of response functions that the embedded program consumes.
-/

deriving instance DecidableEq for Except

namespace ImageGenAdapter

/-- `outputImagesMaxCountSupported()` (src/index.ts lines 22-28).
The method body is an `if`/`else if` chain with no final `else`, so for a
model other than the three named ones it falls through and returns
`undefined`, modelled as `none`. -/
def outputImagesMaxCountSupported (model : String) : Option Nat :=
  if model = "gpt-image-1" ∨ model = "dall-e-2" then some 10
  else if model = "dall-e-3" then some 1
  else none

/-- `outputDimensionsSupported()` (src/index.ts lines 30-38); again the
chain has no final `else`, hence `none` for unknown models. -/
def outputDimensionsSupported (model : String) : Option (List String) :=
  if model = "gpt-image-1" then
    some ["1024x1024", "1536x1024", "1024x1536", "auto"]
  else if model = "dall-e-2" then
    some ["256x256", "512x512", "1024x1024"]
  else if model = "dall-e-3" then
    some ["1024x1024", "1792x1024", "1024x1792"]
  else none

/-- `inputFileExtensionSupported()` (src/index.ts lines 40-47); this one
ends in `return [];`, so it is total. -/
def inputFileExtensionSupported (model : String) : List String :=
  if model = "dall-e-2" then ["png"]
  else if model = "gpt-image-1" ∨ model = "dall-e-3" then ["png", "jpg", "jpeg"]
  else []

/-- The constructor's `this.options.model = options.model || 'gpt-image-1'`
(src/index.ts line 13).  A supplied model is a string or absent; the falsy
strings are exactly `""`, and an absent/`null`/`undefined` model is `none`. -/
def constructorModel (model : Option String) : String :=
  match model with
  | some s => if s = "" then "gpt-image-1" else s
  | none => "gpt-image-1"

/-- The arguments of `generate` (src/index.ts lines 49-54); optional
parameters that the caller may omit are `Option`s. -/
structure GenParams where
  prompt : String
  inputFiles : Option (List String)
  size : Option String
  n : Option Nat
deriving DecidableEq

/-- Destructuring default `inputFiles = []` (src/index.ts line 59). -/
def inputFilesEffective (p : GenParams) : List String :=
  p.inputFiles.getD []

/-- Destructuring default `n = 1` (src/index.ts line 59). -/
def nEffective (p : GenParams) : Nat :=
  p.n.getD 1

/-- Destructuring default `size = this.outputDimensionsSupported()[0]`
(src/index.ts line 59).  For an unknown model `outputDimensionsSupported()`
is `undefined` and indexing it throws a `TypeError`, modelled as
`Except.error`.  Every dimension table in the source is non-empty, so the
`headD ""` fallback (JavaScript would yield `undefined` on an empty array)
is never taken. -/
def sizeEffective (model : String) (p : GenParams) : Except String String :=
  match p.size with
  | some s => .ok s
  | none =>
    match outputDimensionsSupported model with
    | none => .error "TypeError: this.outputDimensionsSupported() is undefined"
    | some dims => .ok (dims.headD "")

/-- The guard `if (n > this.outputImagesMaxCountSupported()) throw ...`
(src/index.ts lines 61-63).  When the lookup is `undefined` the JavaScript
comparison `n > undefined` is `false`, so no error is thrown. -/
def maxCountCheck (model : String) (n : Nat) : Except String Unit :=
  match outputImagesMaxCountSupported model with
  | some m =>
    if m < n then
      .error ("For model \"" ++ model ++ "\", the maximum number of images is "
        ++ toString m)
    else .ok ()
  | none => .ok ()

/-- An axios error object, as observed by the `catch` block at
src/index.ts lines 192-195: `error.message` and (already rendered to a
string) `JSON.stringify(error.response)`. -/
structure HttpError where
  message : String
  responseJson : String
deriving DecidableEq

/-- One item of the `generations` response's `data` array
(src/index.ts lines 131-141): `url` and `b64_json` may each be absent. -/
structure GenItem where
  url : Option String
  b64_json : Option String
deriving DecidableEq

/-- The JSON body of the `generations` response; `response.data?.data`
may be missing or null (src/index.ts line 131), hence the `Option`. -/
structure GenerationsResponse where
  dataField : Option (List GenItem)
deriving DecidableEq

/-- One item of the `edits` response's `data` array; the code reads
`image.b64_json` unconditionally (src/index.ts lines 186-189). -/
structure EditItem where
  b64_json : String
deriving DecidableEq

/-- The JSON body of the `edits` response (src/index.ts line 186). -/
structure EditsResponse where
  dataField : List EditItem
deriving DecidableEq

/-- One part appended to the `FormData` of the edits request:
`formData.append(key, value)` for plain fields, and
`formData.append('image[]', buffer, { filename, contentType })` for the
input images (src/index.ts lines 145-167). -/
inductive FormPart where
  | field (key value : String)
  | file (key : String) (bytes : List Nat) (filename contentType : String)
deriving DecidableEq

/-- The JSON body posted to `images/generations`
(src/index.ts line 126): `{ prompt, model, n, size, ...extraParams }`.
The spread of `extraParams` is kept as a separate field of key/value
pairs (spread keys would shadow the four fixed keys in JavaScript; the
claims do not touch that corner). -/
structure GenerationsBody where
  prompt : String
  model : String
  n : Nat
  size : String
  extraParams : List (String × String)
deriving DecidableEq

/-- The one HTTP request that `generateOrEditImage` posts: either a JSON
body or a multipart form, each to a fixed URL. -/
inductive ImageRequest where
  | jsonPost (url : String) (body : GenerationsBody)
  | multipartPost (url : String) (parts : List FormPart)
deriving DecidableEq

def generationsURL : String := "https://api.openai.com/v1/images/generations"

def editsURL : String := "https://api.openai.com/v1/images/edits"

/-- The environment of external effects the adapter calls into.  Each
field is the response the outside world gives: the two OpenAI endpoints,
`axios.get` for downloading an input file (its body as raw bytes — the
source's `binary → base64 → Buffer` round trip is byte-preserving),
`Buffer.from(_, 'base64')` decoding, and the `file-type` package's
`fileTypeFromBuffer` returning a MIME type or `undefined`. -/
structure Oracle where
  generationsPost : GenerationsBody → Except HttpError GenerationsResponse
  editsPost : List FormPart → Except HttpError EditsResponse
  fetch : String → Except HttpError (List Nat)
  fileTypeFromBuffer : List Nat → Option String
  b64decode : String → List Nat

/-- `String.prototype.startsWith` on the code points of the strings. -/
def strStartsWith (pre s : String) : Bool :=
  pre.data.isPrefixOf s.data

/-- `String.prototype.split(',')` on a list of characters: the comma
separated segments, in order; a string with no comma yields one segment. -/
def splitOnComma : List Char → List (List Char)
  | [] => [[]]
  | c :: cs =>
    if c = ',' then [] :: splitOnComma cs
    else
      match splitOnComma cs with
      | [] => [[c]]
      | seg :: rest => (c :: seg) :: rest

/-- The message of the `throw` at src/index.ts line 168 (the source's
typo `strating` included). -/
def unsupportedFileUrlMsg (fileUrl : String) : String :=
  "Unsupported file URL for attachment, it should be an absolute URL strating with http or a data URL, but got: "
    ++ fileUrl

/-- Processing of the `i`-th entry of `inputFiles` inside the loop at
src/index.ts lines 156-170: an `http`-prefixed URL is downloaded (a failed
download rejects the promise, the loop is not in a `try`); a `data:` URL
has `split(',')[1]` base64-decoded, where a missing index makes
`Buffer.from(undefined, 'base64')` throw; anything else throws the
`Unsupported file URL` error.  The part appended is always
`image[]` / `image_i+1.png` / `image/png`. -/
def attachInputFile (o : Oracle) (i : Nat) (fileUrl : String) :
    Except String FormPart :=
  if strStartsWith "http" fileUrl then
    match o.fetch fileUrl with
    | .error e => .error e.message
    | .ok bytes =>
      .ok (.file "image[]" bytes ("image_" ++ toString (i + 1) ++ ".png") "image/png")
  else if strStartsWith "data:" fileUrl then
    match (splitOnComma fileUrl.data)[1]? with
    | none => .error "TypeError: first argument of Buffer.from is undefined"
    | some seg =>
      .ok (.file "image[]" (o.b64decode (String.mk seg))
        ("image_" ++ toString (i + 1) ++ ".png") "image/png")
  else
    .error (unsupportedFileUrlMsg fileUrl)

/-- The whole `for` loop at src/index.ts lines 156-170, starting at index
`i`: files are processed left to right and the first throw or rejection
aborts the call. -/
def attachFiles (o : Oracle) : Nat → List String → Except String (List FormPart)
  | _, [] => .ok []
  | i, f :: rest =>
    match attachInputFile o i f with
    | .error msg => .error msg
    | .ok part =>
      match attachFiles o (i + 1) rest with
      | .error msg => .error msg
      | .ok parts => .ok (part :: parts)

/-- Adapter options after the constructor ran: `model` is the configured
model name and `extraParams` the optional extra key/value pairs
(`none`/absent modelled as `[]`). -/
structure AdapterOptions where
  openAiApiKey : String
  model : String
  extraParams : List (String × String)

/-- The effective arguments `generateOrEditImage` receives
(src/index.ts lines 101-112). -/
structure GenArgs where
  prompt : String
  inputFiles : List String
  n : Nat
  size : String
deriving DecidableEq

/-- The four fixed form fields plus the `extraParams` fields, in the
order the source appends them (src/index.ts lines 145-154). -/
def baseFormParts (opts : AdapterOptions) (a : GenArgs) : List FormPart :=
  [FormPart.field "prompt" a.prompt, FormPart.field "model" opts.model,
      FormPart.field "n" (toString a.n), FormPart.field "size" a.size]
    ++ opts.extraParams.map (fun kv => FormPart.field kv.1 kv.2)

/-- Construction of the single HTTP request of `generateOrEditImage`
(src/index.ts lines 124-182): empty `inputFiles` gives the JSON
generations request, non-empty gives the multipart edits request whose
form is the fixed fields, the extra params, then one `image[]` part per
input file. -/
def buildRequest (o : Oracle) (opts : AdapterOptions) (a : GenArgs) :
    Except String ImageRequest :=
  if a.inputFiles = [] then
    .ok (.jsonPost generationsURL
      { prompt := a.prompt, model := opts.model, n := a.n, size := a.size,
        extraParams := opts.extraParams })
  else
    match attachFiles o 0 a.inputFiles with
    | .error msg => .error msg
    | .ok fileParts => .ok (.multipartPost editsURL (baseFormParts opts a ++ fileParts))

/-- JavaScript truthiness of a possibly-absent string: `undefined` and
the empty string are falsy, every other string is truthy. -/
def isTruthyStr : Option String → Bool
  | some s => s != ""
  | none => false

/-- The arrow function of `images.map` at src/index.ts lines 132-139:
`if (item.url) return item.url; if (item.b64_json) return 'data:...' ;
return null`, with `null` as `none`. -/
def generationsItemToUrl (item : GenItem) : Option String :=
  if isTruthyStr item.url then item.url
  else if isTruthyStr item.b64_json then
    item.b64_json.map (fun b => "data:image/png;base64," ++ b)
  else none

/-- `images.map(...).filter(url => url !== null)`
(src/index.ts lines 132-141): map each item to a URL or `null`, then drop
the `null`s. -/
def generationsImageURLs (items : List GenItem) : List String :=
  (items.map generationsItemToUrl).filterMap id

/-- `guessMimeTypeByB64` (src/index.ts lines 93-99): decode the base64
payload, sniff the file type, fall back to `application/octet-stream`
when the sniffer returns `undefined`.  The decoder and the sniffer are
the external `Buffer.from(_, 'base64')` and `fileTypeFromBuffer`. -/
def guessMimeTypeByB64 (fileTypeFromBuffer : List Nat → Option String)
    (b64decode : String → List Nat) (b64 : String) : String :=
  match fileTypeFromBuffer (b64decode b64) with
  | some mime => mime
  | none => "application/octet-stream"

/-- The `editResponse.data.data.map` at src/index.ts lines 184-191:
each item becomes `data:<sniffed mime>;base64,<b64_json>`. -/
def editsImageURLs (o : Oracle) (items : List EditItem) : List String :=
  items.map (fun image =>
    "data:" ++ guessMimeTypeByB64 o.fileTypeFromBuffer o.b64decode image.b64_json
      ++ ";base64," ++ image.b64_json)

/-- The error string built by the `catch` block at
src/index.ts lines 192-195. -/
def editsErrorMsg (e : HttpError) : String :=
  "Error generating image: " ++ e.message ++ ", " ++ e.responseJson

/-- The value `generate` resolves to: `{ imageURLs }` or `{ error }`. -/
inductive GenResult where
  | images (imageURLs : List String)
  | err (error : String)
deriving DecidableEq

/-- `generateOrEditImage` (src/index.ts lines 101-199).  The generations
`axios.post` is not inside a `try`, so an HTTP error there rejects the
promise (`Except.error e.message`); the edits `axios.post` is inside
`try`/`catch`, so an HTTP error there resolves to `{ error: ... }`. -/
def generateOrEditImage (o : Oracle) (opts : AdapterOptions) (a : GenArgs) :
    Except String GenResult :=
  match buildRequest o opts a with
  | .error msg => .error msg
  | .ok (.jsonPost _ body) =>
    match o.generationsPost body with
    | .error e => .error e.message
    | .ok resp => .ok (.images (generationsImageURLs (resp.dataField.getD [])))
  | .ok (.multipartPost _ parts) =>
    match o.editsPost parts with
    | .error e => .ok (.err (editsErrorMsg e))
    | .ok resp => .ok (.images (editsImageURLs o resp.dataField))

/-- `generate` (src/index.ts lines 49-66): apply the destructuring
defaults (line 59, which can itself throw for an unknown model), run the
max-count guard (lines 61-63), then delegate to `generateOrEditImage`. -/
def generate (o : Oracle) (opts : AdapterOptions) (p : GenParams) :
    Except String GenResult :=
  match sizeEffective opts.model p with
  | .error msg => .error msg
  | .ok size =>
    match maxCountCheck opts.model (nEffective p) with
    | .error msg => .error msg
    | .ok _ =>
      generateOrEditImage o opts
        { prompt := p.prompt, inputFiles := inputFilesEffective p,
          n := nEffective p, size := size }

/-!  A model of arbitrary JavaScript values, as far as
`stripLargeValuesInAnyObject` (src/index.ts lines 69-91) can observe them:
primitives, `null`/`undefined`, arrays and plain objects.  The list
constructors are part of the mutual inductive so that structural
recursion and induction stay elementary.  JavaScript strings are
`List Char` here because `substring(0, 100)` and `length` matter. -/

mutual
inductive JSVal where
  | str (s : List Char)
  | num (n : Int)
  | boolean (b : Bool)
  | null
  | undef
  | arr (items : JSList)
  | obj (fields : JSFields)
deriving DecidableEq

inductive JSList where
  | nil
  | cons (v : JSVal) (rest : JSList)
deriving DecidableEq

inductive JSFields where
  | nil
  | cons (key : String) (v : JSVal) (rest : JSFields)
deriving DecidableEq
end

mutual
/-- `stripLargeValuesInAnyObject(obj)` (src/index.ts lines 69-91).  A
non-object (strings included, however long) or `null` is returned as is;
an array is mapped recursively; an object's own fields go through
`stripFieldValue`. -/
def stripLargeValuesInAnyObject : JSVal → JSVal
  | .arr items => .arr (stripJSList items)
  | .obj fields => .obj (stripJSFields fields)
  | v => v

/-- `obj.map(item => this.stripLargeValuesInAnyObject(item))`
(src/index.ts line 74). -/
def stripJSList : JSList → JSList
  | .nil => .nil
  | .cons v rest => .cons (stripLargeValuesInAnyObject v) (stripJSList rest)

/-- The `for (const key in obj)` loop (src/index.ts lines 77-89),
field by field. -/
def stripJSFields : JSFields → JSFields
  | .nil => .nil
  | .cons k v rest => .cons k (stripFieldValue v) (stripJSFields rest)

/-- The per-field branch (src/index.ts lines 79-88): a string longer than
100 characters becomes `substring(0, 100) + '...'`; a value with
`typeof value === 'object'` (arrays, objects and `null`) is recursed
into; everything else is kept. -/
def stripFieldValue : JSVal → JSVal
  | .str s =>
    if 100 < s.length then .str (s.take 100 ++ ['.', '.', '.']) else .str s
  | .arr items => .arr (stripJSList items)
  | .obj fields => .obj (stripJSFields fields)
  | .null => .null
  | v => v
end

/-!  Theorems. -/

mutual
theorem stripLargeValuesInAnyObject_fix : ∀ v : JSVal,
    stripLargeValuesInAnyObject (stripLargeValuesInAnyObject v)
      = stripLargeValuesInAnyObject v
  | .str _ => rfl
  | .num _ => rfl
  | .boolean _ => rfl
  | .null => rfl
  | .undef => rfl
  | .arr items => by
    simp only [stripLargeValuesInAnyObject, stripJSList_fix items]
  | .obj fields => by
    simp only [stripLargeValuesInAnyObject, stripJSFields_fix fields]

theorem stripJSList_fix : ∀ l : JSList, stripJSList (stripJSList l) = stripJSList l
  | .nil => rfl
  | .cons v rest => by
    simp only [stripJSList, stripLargeValuesInAnyObject_fix v, stripJSList_fix rest]

theorem stripJSFields_fix : ∀ fl : JSFields,
    stripJSFields (stripJSFields fl) = stripJSFields fl
  | .nil => rfl
  | .cons k v rest => by
    simp only [stripJSFields, stripFieldValue_fix v, stripJSFields_fix rest]

theorem stripFieldValue_fix : ∀ v : JSVal,
    stripFieldValue (stripFieldValue v) = stripFieldValue v
  | .str s => by
    by_cases h : 100 < s.length
    · have hlen : (s.take 100).length = 100 := by
        rw [List.length_take]
        exact Nat.min_eq_left (by omega)
      have hlong : 100 < (s.take 100 ++ ['.', '.', '.']).length := by
        simp only [List.length_append, hlen, List.length_cons, List.length_nil]
        omega
      have htake : (s.take 100 ++ ['.', '.', '.']).take 100 = s.take 100 := by
        rw [List.take_append_eq_append_take, hlen]
        simp
      simp only [stripFieldValue, if_pos h, if_pos hlong, htake]
    · simp only [stripFieldValue, if_neg h]
  | .num _ => rfl
  | .boolean _ => rfl
  | .null => rfl
  | .undef => rfl
  | .arr items => by simp only [stripFieldValue, stripJSList_fix items]
  | .obj fields => by simp only [stripFieldValue, stripJSFields_fix fields]
end

/-- C10: `stripLargeValuesInAnyObject` is idempotent — applying it twice
to any JavaScript value gives the same result as applying it once; in
particular a field already truncated to 100 characters plus `'...'` is
left unchanged by a second pass. -/
theorem c10_stripLargeValuesInAnyObject_idempotent (v : JSVal) :
    stripLargeValuesInAnyObject (stripLargeValuesInAnyObject v)
      = stripLargeValuesInAnyObject v :=
  stripLargeValuesInAnyObject_fix v

/-- C6: `outputDimensionsSupported` returns exactly the three documented
size lists for the three known models. -/
theorem c6_outputDimensionsSupported_table :
    outputDimensionsSupported "gpt-image-1"
        = some ["1024x1024", "1536x1024", "1024x1536", "auto"] ∧
    outputDimensionsSupported "dall-e-2"
        = some ["256x256", "512x512", "1024x1024"] ∧
    outputDimensionsSupported "dall-e-3"
        = some ["1024x1024", "1792x1024", "1024x1792"] := by
  refine ⟨by decide, by decide, by decide⟩

/-- C7: `inputFileExtensionSupported` is total: `['png']` for dall-e-2,
`['png', 'jpg', 'jpeg']` for gpt-image-1 and dall-e-3, and `[]` for every
other model name. -/
theorem c7_inputFileExtensionSupported_table :
    inputFileExtensionSupported "dall-e-2" = ["png"] ∧
    inputFileExtensionSupported "gpt-image-1" = ["png", "jpg", "jpeg"] ∧
    inputFileExtensionSupported "dall-e-3" = ["png", "jpg", "jpeg"] ∧
    ∀ m : String, m ≠ "gpt-image-1" → m ≠ "dall-e-2" → m ≠ "dall-e-3" →
      inputFileExtensionSupported m = [] := by
  refine ⟨by decide, by decide, by decide, ?_⟩
  intro m h1 h2 h3
  simp [inputFileExtensionSupported, h1, h2, h3]

/-- Witness for C7 at the concrete unknown model name `"foo"`. -/
theorem c7_inputFileExtensionSupported_table_witness :
    inputFileExtensionSupported "foo" = [] :=
  c7_inputFileExtensionSupported_table.2.2.2 "foo" (by decide) (by decide) (by decide)

/-- C8: the constructor replaces an absent or falsy model with
`'gpt-image-1'`, and `generate`'s omitted parameters default to `n = 1`,
`inputFiles = []` and `size = outputDimensionsSupported()[0]` for the
configured model. -/
theorem c8_option_defaulting :
    constructorModel none = "gpt-image-1" ∧
    constructorModel (some "") = "gpt-image-1" ∧
    (∀ p : GenParams, p.n = none → nEffective p = 1) ∧
    (∀ p : GenParams, p.inputFiles = none → inputFilesEffective p = []) ∧
    (∀ (model d : String) (rest : List String) (p : GenParams),
      p.size = none → outputDimensionsSupported model = some (d :: rest) →
      sizeEffective model p = .ok d) := by
  refine ⟨rfl, by decide, ?_, ?_, ?_⟩
  · intro p hp
    simp [nEffective, hp]
  · intro p hp
    simp [inputFilesEffective, hp]
  · intro model d rest p hp hdims
    simp [sizeEffective, hp, hdims]

/-- Witness for C8 on a `generate` call with everything omitted, under
the default model. -/
theorem c8_option_defaulting_witness :
    nEffective ⟨"a cat", none, none, none⟩ = 1 ∧
    inputFilesEffective ⟨"a cat", none, none, none⟩ = [] ∧
    sizeEffective "gpt-image-1" ⟨"a cat", none, none, none⟩ = .ok "1024x1024" :=
  ⟨c8_option_defaulting.2.2.1 ⟨"a cat", none, none, none⟩ rfl,
    c8_option_defaulting.2.2.2.1 ⟨"a cat", none, none, none⟩ rfl,
    c8_option_defaulting.2.2.2.2 "gpt-image-1" "1024x1024"
      ["1536x1024", "1024x1536", "auto"] ⟨"a cat", none, none, none⟩ rfl (by decide)⟩

theorem maxCount_known_model (model : String) (m : Nat)
    (h : outputImagesMaxCountSupported model = some m) :
    model = "gpt-image-1" ∨ model = "dall-e-2" ∨ model = "dall-e-3" := by
  unfold outputImagesMaxCountSupported at h
  split at h
  · rename_i hc
    exact hc.elim Or.inl (fun hc => Or.inr (Or.inl hc))
  · split at h
    · rename_i hc
      exact Or.inr (Or.inr hc)
    · exact absurd h (by simp)

theorem sizeEffective_ok_of_known (model : String) (p : GenParams)
    (h : model = "gpt-image-1" ∨ model = "dall-e-2" ∨ model = "dall-e-3") :
    ∃ s, sizeEffective model p = .ok s := by
  cases hps : p.size with
  | some s => exact ⟨s, by simp [sizeEffective, hps]⟩
  | none =>
    rcases h with h | h | h <;> subst h
    · exact ⟨"1024x1024", by simp [sizeEffective, hps, outputDimensionsSupported]⟩
    · exact ⟨"256x256", by simp [sizeEffective, hps, outputDimensionsSupported]⟩
    · exact ⟨"1024x1024", by simp [sizeEffective, hps, outputDimensionsSupported]⟩

/-- A trivial environment used to instantiate theorems with hypotheses. -/
def trivialOracle : Oracle where
  generationsPost := fun _ => .ok ⟨none⟩
  editsPost := fun _ => .ok ⟨[]⟩
  fetch := fun _ => .ok []
  fileTypeFromBuffer := fun _ => none
  b64decode := fun s => s.data.map Char.toNat

/-- C5: `outputImagesMaxCountSupported` gives 10 for gpt-image-1 and
dall-e-2 and 1 for dall-e-3, and a `generate` call whose effective `n`
exceeds the model's maximum throws the error naming the model and the
maximum. -/
theorem c5_outputImagesMaxCount (o : Oracle) (opts : AdapterOptions)
    (p : GenParams) (m : Nat)
    (hmax : outputImagesMaxCountSupported opts.model = some m)
    (hn : m < nEffective p) :
    outputImagesMaxCountSupported "gpt-image-1" = some 10 ∧
    outputImagesMaxCountSupported "dall-e-2" = some 10 ∧
    outputImagesMaxCountSupported "dall-e-3" = some 1 ∧
    generate o opts p = .error ("For model \"" ++ opts.model
      ++ "\", the maximum number of images is " ++ toString m) := by
  refine ⟨by decide, by decide, by decide, ?_⟩
  obtain ⟨s, hs⟩ := sizeEffective_ok_of_known opts.model p (maxCount_known_model _ _ hmax)
  have hmc : maxCountCheck opts.model (nEffective p)
      = .error ("For model \"" ++ opts.model
        ++ "\", the maximum number of images is " ++ toString m) := by
    simp [maxCountCheck, hmax, hn]
  simp [generate, hs, hmc]

/-- Witness for C5: `n = 2` on dall-e-3 (maximum 1) throws. -/
theorem c5_outputImagesMaxCount_witness :
    generate trivialOracle ⟨"key", "dall-e-3", []⟩ ⟨"a cat", none, none, some 2⟩ =
      .error ("For model \"" ++ "dall-e-3" ++ "\", the maximum number of images is "
        ++ toString 1) :=
  (c5_outputImagesMaxCount trivialOracle ⟨"key", "dall-e-3", []⟩
    ⟨"a cat", none, none, some 2⟩ 1 (by decide) (by decide)).2.2.2

theorem attachInputFile_ok_shape (o : Oracle) (i : Nat) (f : String) (part : FormPart)
    (h : attachInputFile o i f = .ok part) :
    ∃ bytes fn, part = FormPart.file "image[]" bytes fn "image/png" := by
  unfold attachInputFile at h
  split at h
  · split at h
    · simp at h
    · injection h with h
      exact ⟨_, _, h.symm⟩
  · split at h
    · split at h
      · simp at h
      · injection h with h
        exact ⟨_, _, h.symm⟩
    · simp at h

theorem attachFiles_ok_shape (o : Oracle) :
    ∀ (files : List String) (i : Nat) (parts : List FormPart),
      attachFiles o i files = .ok parts →
      parts.length = files.length ∧
        ∀ part ∈ parts, ∃ bytes fn, part = FormPart.file "image[]" bytes fn "image/png"
  | [], _, parts, h => by
    unfold attachFiles at h
    injection h with h
    subst h
    exact ⟨rfl, by simp⟩
  | f :: rest, i, parts, h => by
    cases hpart : attachInputFile o i f with
    | error msg => simp [attachFiles, hpart] at h
    | ok part =>
      cases hparts : attachFiles o (i + 1) rest with
      | error msg => simp [attachFiles, hpart, hparts] at h
      | ok parts' =>
        simp only [attachFiles, hpart, hparts] at h
        injection h with h
        subst h
        obtain ⟨hlen, hmem⟩ := attachFiles_ok_shape o rest (i + 1) parts' hparts
        refine ⟨by simp [hlen], ?_⟩
        intro q hq
        rcases List.mem_cons.mp hq with hq | hq
        · rw [hq]
          exact attachInputFile_ok_shape o i f part hpart
        · exact hmem q hq

/-- C2: when the effective `inputFiles` is empty the constructed request
is the JSON post of `{prompt, model, n, size, ...extraParams}` to the
generations endpoint; when it is non-empty, any successfully constructed
request is the multipart post to the edits endpoint of the four fixed
fields, the extra params, and one `image[]` file part per input file. -/
theorem c2_request_construction (o : Oracle) (opts : AdapterOptions) (a : GenArgs) :
    (a.inputFiles = [] →
      buildRequest o opts a = .ok (.jsonPost generationsURL
        { prompt := a.prompt, model := opts.model, n := a.n, size := a.size,
          extraParams := opts.extraParams })) ∧
    (a.inputFiles ≠ [] → ∀ r, buildRequest o opts a = .ok r →
      ∃ fileParts, r = .multipartPost editsURL (baseFormParts opts a ++ fileParts) ∧
        fileParts.length = a.inputFiles.length ∧
        ∀ part ∈ fileParts, ∃ bytes fn,
          part = FormPart.file "image[]" bytes fn "image/png") := by
  constructor
  · intro hempty
    simp [buildRequest, hempty]
  · intro hne r hr
    unfold buildRequest at hr
    rw [if_neg hne] at hr
    split at hr
    · simp at hr
    · rename_i fileParts hfp
      injection hr with hr
      obtain ⟨hlen, hmem⟩ := attachFiles_ok_shape o a.inputFiles 0 fileParts hfp
      exact ⟨fileParts, hr.symm, hlen, hmem⟩

/-- Witness for C2 on a call without reference images. -/
theorem c2_request_construction_witness :
    buildRequest trivialOracle ⟨"key", "gpt-image-1", []⟩ ⟨"a cat", [], 1, "1024x1024"⟩ =
      .ok (.jsonPost generationsURL ⟨"a cat", "gpt-image-1", 1, "1024x1024", []⟩) :=
  (c2_request_construction trivialOracle ⟨"key", "gpt-image-1", []⟩
    ⟨"a cat", [], 1, "1024x1024"⟩).1 rfl

/-- An environment whose generations endpoint answers with an HTTP
error, as axios reports it. -/
def genFailOracle : Oracle where
  generationsPost := fun _ => .error ⟨"Request failed with status code 400", "resp400"⟩
  editsPost := fun _ => .ok ⟨[]⟩
  fetch := fun _ => .ok []
  fileTypeFromBuffer := fun _ => none
  b64decode := fun s => s.data.map Char.toNat

/-- C1 counterexample: on the generations path (empty `inputFiles`) the
`axios.post` is not inside a `try`, so an HTTP error from the API makes
the promise returned by `generate` reject (`Except.error`) instead of
resolving to an object with an `error` string. -/
theorem c1_counterexample :
    generate genFailOracle ⟨"key", "gpt-image-1", []⟩ ⟨"a cat", none, none, none⟩ =
      .error "Request failed with status code 400" := by decide

/-- C1 (amended): a `generate` call resolves to `{ imageURLs }` when the
posted request succeeds; an HTTP error from the edits POST is caught and
returned as the `error` string, but an HTTP error from the generations
POST propagates as a rejection of the promise. -/
theorem c1_amended_error_handling (o : Oracle) (opts : AdapterOptions) (a : GenArgs) :
    (∀ e, a.inputFiles = [] →
      o.generationsPost ⟨a.prompt, opts.model, a.n, a.size, opts.extraParams⟩ = .error e →
      generateOrEditImage o opts a = .error e.message) ∧
    (∀ resp, a.inputFiles = [] →
      o.generationsPost ⟨a.prompt, opts.model, a.n, a.size, opts.extraParams⟩ = .ok resp →
      generateOrEditImage o opts a
        = .ok (.images (generationsImageURLs (resp.dataField.getD [])))) ∧
    (∀ parts e, a.inputFiles ≠ [] →
      attachFiles o 0 a.inputFiles = .ok parts →
      o.editsPost (baseFormParts opts a ++ parts) = .error e →
      generateOrEditImage o opts a = .ok (.err (editsErrorMsg e))) ∧
    (∀ parts resp, a.inputFiles ≠ [] →
      attachFiles o 0 a.inputFiles = .ok parts →
      o.editsPost (baseFormParts opts a ++ parts) = .ok resp →
      generateOrEditImage o opts a = .ok (.images (editsImageURLs o resp.dataField))) := by
  refine ⟨?_, ?_, ?_, ?_⟩
  · intro e hempty hpost
    simp [generateOrEditImage, buildRequest, hempty, hpost]
  · intro resp hempty hpost
    simp [generateOrEditImage, buildRequest, hempty, hpost]
  · intro parts e hne hatt hpost
    simp [generateOrEditImage, buildRequest, hne, hatt, hpost]
  · intro parts resp hne hatt hpost
    simp [generateOrEditImage, buildRequest, hne, hatt, hpost]

/-- An environment whose edits endpoint answers with an HTTP error. -/
def editsFailOracle : Oracle where
  generationsPost := fun _ => .ok ⟨none⟩
  editsPost := fun _ => .error ⟨"Request failed with status code 500", "resp500"⟩
  fetch := fun _ => .ok [1, 2, 3]
  fileTypeFromBuffer := fun _ => none
  b64decode := fun s => s.data.map Char.toNat

/-- Witness for C1 (amended): an edits-path HTTP error comes back as a
resolved `{ error }` object. -/
theorem c1_amended_error_handling_witness :
    generateOrEditImage editsFailOracle ⟨"key", "gpt-image-1", []⟩
        ⟨"a cat", ["http://example.com/cat.png"], 1, "1024x1024"⟩ =
      .ok (.err (editsErrorMsg ⟨"Request failed with status code 500", "resp500"⟩)) :=
  (c1_amended_error_handling editsFailOracle ⟨"key", "gpt-image-1", []⟩
      ⟨"a cat", ["http://example.com/cat.png"], 1, "1024x1024"⟩).2.2.1
    [FormPart.file "image[]" [1, 2, 3] "image_1.png" "image/png"]
    ⟨"Request failed with status code 500", "resp500"⟩
    (by decide) (by decide) (by decide)

/-- The per-item normalization exactly as C3 states it: `item.url` when
present, otherwise the png data URL of `item.b64_json` when present,
otherwise drop the item — with "present" read as the field being there
(`isSome`).  Kept separate from the source translation so the two can be
compared. -/
def c3StatedItemToUrl (item : GenItem) : Option String :=
  match item.url with
  | some u => some u
  | none =>
    match item.b64_json with
    | some b => some ("data:image/png;base64," ++ b)
    | none => none

/-- The whole normalization as C3 states it. -/
def c3StatedNormalize (items : List GenItem) : List String :=
  items.filterMap c3StatedItemToUrl

/-- An environment whose generations endpoint returns one item with an
empty-string `url` and a `b64_json`. -/
def emptyUrlOracle : Oracle where
  generationsPost := fun _ => .ok ⟨some [⟨some "", some "x"⟩]⟩
  editsPost := fun _ => .ok ⟨[]⟩
  fetch := fun _ => .ok []
  fileTypeFromBuffer := fun _ => none
  b64decode := fun s => s.data.map Char.toNat

/-- C3 counterexample: for the response item `{ url: "", b64_json: "x" }`
the code's truthiness test `if (item.url)` skips the empty-string `url`
and produces the base64 data URL, while the claim's "item.url when
present" mapping would produce `""`. -/
theorem c3_counterexample :
    generateOrEditImage emptyUrlOracle ⟨"key", "gpt-image-1", []⟩
        ⟨"a cat", [], 1, "1024x1024"⟩ ≠
      .ok (.images (c3StatedNormalize [⟨some "", some "x"⟩])) := by decide

/-- The per-item normalization of C3 as amended: a field counts only
when it is present *and non-empty* (JavaScript truthiness). -/
def c3AmendedItemToUrl (item : GenItem) : Option String :=
  match item.url with
  | some u =>
    if u ≠ "" then some u
    else
      match item.b64_json with
      | some b => if b ≠ "" then some ("data:image/png;base64," ++ b) else none
      | none => none
  | none =>
    match item.b64_json with
    | some b => if b ≠ "" then some ("data:image/png;base64," ++ b) else none
    | none => none

/-- The whole normalization of C3 as amended. -/
def c3AmendedNormalize (items : List GenItem) : List String :=
  items.filterMap c3AmendedItemToUrl

theorem itemToUrl_eq_amended (item : GenItem) :
    generationsItemToUrl item = c3AmendedItemToUrl item := by
  rcases item with ⟨url, b64⟩
  rcases url with _ | u <;> rcases b64 with _ | b
  · rfl
  · by_cases hb : b = "" <;>
      simp [generationsItemToUrl, c3AmendedItemToUrl, isTruthyStr, hb, bne_iff_ne]
  · by_cases hu : u = "" <;>
      simp [generationsItemToUrl, c3AmendedItemToUrl, isTruthyStr, hu, bne_iff_ne]
  · by_cases hu : u = "" <;> by_cases hb : b = "" <;>
      simp [generationsItemToUrl, c3AmendedItemToUrl, isTruthyStr, hu, hb, bne_iff_ne]

theorem generationsImageURLs_eq_amended (items : List GenItem) :
    generationsImageURLs items = c3AmendedNormalize items := by
  unfold generationsImageURLs c3AmendedNormalize
  rw [List.filterMap_map]
  exact List.filterMap_congr (fun item _ => by
    simp [Function.comp, itemToUrl_eq_amended])

/-- C3 (amended): on the generations path each response item is mapped
to `item.url` when that is present and non-empty, otherwise to the png
data URL of `item.b64_json` when that is present and non-empty, dropping
the rest; a missing or null `data` array yields `[]`. -/
theorem c3_amended_generations_normalization (o : Oracle) (opts : AdapterOptions)
    (a : GenArgs) (resp : GenerationsResponse)
    (hempty : a.inputFiles = [])
    (hpost : o.generationsPost ⟨a.prompt, opts.model, a.n, a.size, opts.extraParams⟩
      = .ok resp) :
    generateOrEditImage o opts a
      = .ok (.images (c3AmendedNormalize (resp.dataField.getD []))) ∧
    (resp.dataField = none → generateOrEditImage o opts a = .ok (.images [])) := by
  have hmain : generateOrEditImage o opts a
      = .ok (.images (generationsImageURLs (resp.dataField.getD []))) := by
    simp [generateOrEditImage, buildRequest, hempty, hpost]
  constructor
  · rw [hmain, generationsImageURLs_eq_amended]
  · intro hnone
    rw [hmain, hnone]
    rfl

/-- An environment exercising all three normalization cases at once. -/
def mixedItemsOracle : Oracle where
  generationsPost := fun _ =>
    .ok ⟨some [⟨some "http://u", none⟩, ⟨none, some "x"⟩, ⟨none, none⟩]⟩
  editsPost := fun _ => .ok ⟨[]⟩
  fetch := fun _ => .ok []
  fileTypeFromBuffer := fun _ => none
  b64decode := fun s => s.data.map Char.toNat

/-- Witness for C3 (amended) on a three-item response. -/
theorem c3_amended_generations_normalization_witness :
    generateOrEditImage mixedItemsOracle ⟨"key", "gpt-image-1", []⟩
        ⟨"a cat", [], 1, "1024x1024"⟩
      = .ok (.images (c3AmendedNormalize
          [⟨some "http://u", none⟩, ⟨none, some "x"⟩, ⟨none, none⟩])) :=
  (c3_amended_generations_normalization mixedItemsOracle ⟨"key", "gpt-image-1", []⟩
    ⟨"a cat", [], 1, "1024x1024"⟩ ⟨some [⟨some "http://u", none⟩, ⟨none, some "x"⟩, ⟨none, none⟩]⟩
    rfl rfl).1

/-- C4: on the edits path, every returned image URL is the data URL of
the item's `b64_json`, whose MIME type is the sniffer's answer on the
decoded bytes, `application/octet-stream` when the sniffer finds
nothing. -/
theorem c4_edits_mime_sniffing (o : Oracle) (opts : AdapterOptions) (a : GenArgs)
    (parts : List FormPart) (resp : EditsResponse)
    (hne : a.inputFiles ≠ [])
    (hatt : attachFiles o 0 a.inputFiles = .ok parts)
    (hpost : o.editsPost (baseFormParts opts a ++ parts) = .ok resp) :
    ∃ urls, generateOrEditImage o opts a = .ok (.images urls) ∧
      ∀ url ∈ urls, ∃ image ∈ resp.dataField,
        url = "data:"
          ++ (o.fileTypeFromBuffer (o.b64decode image.b64_json)).getD
              "application/octet-stream"
          ++ ";base64," ++ image.b64_json := by
  refine ⟨editsImageURLs o resp.dataField, ?_, ?_⟩
  · simp [generateOrEditImage, buildRequest, hne, hatt, hpost]
  · intro url hurl
    obtain ⟨image, him, hurl⟩ := List.mem_map.mp hurl
    refine ⟨image, him, ?_⟩
    rw [← hurl]
    have hmime : guessMimeTypeByB64 o.fileTypeFromBuffer o.b64decode image.b64_json
        = (o.fileTypeFromBuffer (o.b64decode image.b64_json)).getD
            "application/octet-stream" := by
      unfold guessMimeTypeByB64
      cases o.fileTypeFromBuffer (o.b64decode image.b64_json) <;> rfl
    rw [hmime]

/-- An environment whose edits endpoint returns two items, only the
first of which the sniffer recognizes. -/
def sniffOracle : Oracle where
  generationsPost := fun _ => .ok ⟨none⟩
  editsPost := fun _ => .ok ⟨[⟨"AAAA"⟩, ⟨"BBBB"⟩]⟩
  fetch := fun _ => .ok [7]
  fileTypeFromBuffer := fun bytes => if bytes = [65, 65, 65, 65] then some "image/png" else none
  b64decode := fun s => s.data.map Char.toNat

/-- Witness for C4: one sniffed MIME type, one octet-stream fallback. -/
theorem c4_edits_mime_sniffing_witness :
    ∃ urls, generateOrEditImage sniffOracle ⟨"key", "gpt-image-1", []⟩
        ⟨"a cat", ["http://example.com/cat.png"], 1, "1024x1024"⟩ = .ok (.images urls) ∧
      ∀ url ∈ urls, ∃ image ∈ (⟨[⟨"AAAA"⟩, ⟨"BBBB"⟩]⟩ : EditsResponse).dataField,
        url = "data:"
          ++ (sniffOracle.fileTypeFromBuffer (sniffOracle.b64decode image.b64_json)).getD
              "application/octet-stream"
          ++ ";base64," ++ image.b64_json :=
  c4_edits_mime_sniffing sniffOracle ⟨"key", "gpt-image-1", []⟩
    ⟨"a cat", ["http://example.com/cat.png"], 1, "1024x1024"⟩
    [FormPart.file "image[]" [7] "image_1.png" "image/png"] ⟨[⟨"AAAA"⟩, ⟨"BBBB"⟩]⟩
    (by decide) (by decide) (by decide)

/-- The payload C9 states literally: the whole portion of the `data:` URL
after the first comma (`none` when there is no comma).  Kept separate
from the source translation (`split(',')[1]`) so the two can be
compared. -/
def c9StatedPayload (s : String) : Option String :=
  match splitOnComma s.data with
  | [] => none
  | _ :: [] => none
  | _ :: rest => some (String.mk (List.intercalate [','] rest))

/-- An environment whose downloads fail and whose base64 decoder maps a
string to its code points, so that distinct payloads decode to distinct
byte lists. -/
def fetchFailOracle : Oracle where
  generationsPost := fun _ => .ok ⟨none⟩
  editsPost := fun _ => .ok ⟨[]⟩
  fetch := fun _ => .error ⟨"Network Error", "netresp"⟩
  fileTypeFromBuffer := fun _ => none
  b64decode := fun s => s.data.map Char.toNat

/-- C9 counterexample, two parts.  First, for the entry `"data:x,a,b"`
the code decodes `split(',')[1] = "a"`, not the portion after the first
comma (`"a,b"`), and the two decode to different bytes.  Second, with
`inputFiles = ["http://img", "nope"]` the entry `"nope"` starts with
neither prefix, yet `generate` rejects with the earlier entry's failed
download instead of the `Unsupported file URL` error. -/
theorem c9_counterexample :
    (attachInputFile fetchFailOracle 0 "data:x,a,b"
        = .ok (.file "image[]" (fetchFailOracle.b64decode "a") "image_1.png" "image/png") ∧
      attachInputFile fetchFailOracle 0 "data:x,a,b"
        ≠ .ok (.file "image[]"
            (fetchFailOracle.b64decode ((c9StatedPayload "data:x,a,b").getD ""))
            "image_1.png" "image/png")) ∧
    (generate fetchFailOracle ⟨"key", "gpt-image-1", []⟩
        ⟨"a cat", some ["http://img", "nope"], some "1024x1024", some 1⟩
        = .error "Network Error" ∧
      "Network Error" ≠ unsupportedFileUrlMsg "nope") := by decide

theorem attachInputFile_unsupported (o : Oracle) (i : Nat) (f : String)
    (hhttp : strStartsWith "http" f = false)
    (hdata : strStartsWith "data:" f = false) :
    attachInputFile o i f = .error (unsupportedFileUrlMsg f) := by
  simp [attachInputFile, hhttp, hdata]

theorem not_http_of_data (s : String) (h : strStartsWith "data:" s = true) :
    strStartsWith "http" s = false := by
  have hd : "data:".data = ['d', 'a', 't', 'a', ':'] := rfl
  have hh : "http".data = ['h', 't', 't', 'p'] := rfl
  unfold strStartsWith at h ⊢
  rw [hd] at h
  rw [hh]
  cases hs : s.data with
  | nil =>
    rw [hs] at h
    exact absurd h (by decide)
  | cons c cs =>
    rw [hs] at h
    have hc : c = 'd' := by
      by_contra hne
      have hfalse : ('d' == c) = false := by
        simp [hne]
        exact fun heq => hne heq.symm
      simp [List.isPrefixOf, hfalse] at h
    subst hc
    simp [List.isPrefixOf]

theorem attachInputFile_data (o : Oracle) (i : Nat) (s : String)
    (hd : strStartsWith "data:" s = true)
    (seg1 seg2 : List Char) (rest : List (List Char))
    (hsplit : splitOnComma s.data = seg1 :: seg2 :: rest) :
    attachInputFile o i s = .ok (.file "image[]" (o.b64decode (String.mk seg2))
      ("image_" ++ toString (i + 1) ++ ".png") "image/png") := by
  have hh := not_http_of_data s hd
  simp [attachInputFile, hh, hd, hsplit]

theorem attachFiles_error_of_bad (o : Oracle) (f : String)
    (hhttp : strStartsWith "http" f = false)
    (hdata : strStartsWith "data:" f = false) :
    ∀ (pre post : List String) (i : Nat),
      ∃ msg, attachFiles o i (pre ++ f :: post) = .error msg
  | [], post, i =>
    ⟨unsupportedFileUrlMsg f, by
      simp [attachFiles, attachInputFile_unsupported o i f hhttp hdata]⟩
  | g :: pre, post, i => by
    rw [List.cons_append]
    cases hg : attachInputFile o i g with
    | error m => exact ⟨m, by simp [attachFiles, hg]⟩
    | ok part =>
      obtain ⟨msg, hmsg⟩ := attachFiles_error_of_bad o f hhttp hdata pre post (i + 1)
      exact ⟨msg, by simp [attachFiles, hg, hmsg]⟩

theorem attachFiles_reaches_bad (o : Oracle) (f : String) (post : List String)
    (hbad : ∀ j, attachInputFile o j f = .error (unsupportedFileUrlMsg f)) :
    ∀ (pre : List String) (i : Nat) (parts : List FormPart),
      attachFiles o i pre = .ok parts →
      attachFiles o i (pre ++ f :: post) = .error (unsupportedFileUrlMsg f)
  | [], i, parts, _ => by
    simp [attachFiles, hbad i]
  | g :: pre, i, parts, h => by
    cases hg : attachInputFile o i g with
    | error m => simp [attachFiles, hg] at h
    | ok part =>
      cases hpre : attachFiles o (i + 1) pre with
      | error m => simp [attachFiles, hg, hpre] at h
      | ok parts' =>
        have hrec := attachFiles_reaches_bad o f post hbad pre (i + 1) parts' hpre
        rw [List.cons_append]
        simp [attachFiles, hg, hrec]

/-- C9 (amended): an `inputFiles` entry starting with neither `http` nor
`data:` makes `generate` reject before any edits request is issued —
with the `Unsupported file URL` error when every earlier entry attaches
successfully (an earlier failing download can reject first) — and a
`data:` entry's payload is the segment of the string between the first
and the second comma, `split(',')[1]`, which is then base64-decoded. -/
theorem c9_amended_input_file_handling (o : Oracle) (opts : AdapterOptions)
    (a : GenArgs) (pre post : List String) (f : String)
    (hsplit : a.inputFiles = pre ++ f :: post)
    (hhttp : strStartsWith "http" f = false)
    (hdata : strStartsWith "data:" f = false) :
    (∃ msg, generateOrEditImage o opts a = .error msg) ∧
    (∀ parts, attachFiles o 0 pre = .ok parts →
      generateOrEditImage o opts a = .error (unsupportedFileUrlMsg f)) ∧
    (∀ (i : Nat) (s : String) (seg1 seg2 : List Char) (rest : List (List Char)),
      strStartsWith "data:" s = true →
      splitOnComma s.data = seg1 :: seg2 :: rest →
      attachInputFile o i s = .ok (.file "image[]" (o.b64decode (String.mk seg2))
        ("image_" ++ toString (i + 1) ++ ".png") "image/png")) := by
  refine ⟨?_, ?_, ?_⟩
  · obtain ⟨msg, hmsg⟩ := attachFiles_error_of_bad o f hhttp hdata pre post 0
    refine ⟨msg, ?_⟩
    simp [generateOrEditImage, buildRequest, hsplit, hmsg]
  · intro parts hparts
    have h2 := attachFiles_reaches_bad o f post
      (fun j => attachInputFile_unsupported o j f hhttp hdata) pre 0 parts hparts
    simp [generateOrEditImage, buildRequest, hsplit, h2]
  · intro i s seg1 seg2 rest hd hsp
    exact attachInputFile_data o i s hd seg1 seg2 rest hsp

/-- Witness for C9 (amended): the single bad entry `"nope"` makes
`generateOrEditImage` reject with the `Unsupported file URL` error. -/
theorem c9_amended_input_file_handling_witness :
    generateOrEditImage trivialOracle ⟨"key", "gpt-image-1", []⟩
        ⟨"a cat", ["nope"], 1, "1024x1024"⟩ = .error (unsupportedFileUrlMsg "nope") :=
  (c9_amended_input_file_handling trivialOracle ⟨"key", "gpt-image-1", []⟩
    ⟨"a cat", ["nope"], 1, "1024x1024"⟩ [] [] "nope" rfl (by decide) (by decide)).2.1
    [] rfl

end ImageGenAdapter
